import Mathlib

/-!
Verification of the geofence / visit logic, the broadcast de-duplication and
the retrieval-answer pipeline of `src/app.py` (py_guide repository).

The embedding is shallow: the per-rerun script logic of `app.py` is modelled
as a pure `tick` function on the session state (`st.session_state`), with the
events that the script surfaces to the user (the arrival toast, which plays the
role of the `VisitEnter` dispatch) made explicit as an emitted event list.
The geodesic distance computed by the external `geopy` library is a parameter
`dist` of every definition: the script only consumes distances through
comparisons, so any rational-valued distance function instantiates the model.
Rational numbers stand in for Python floats throughout.
-/

/-- A latitude/longitude pair, as handed to `geodesic` in `app.py`. -/
abbrev Pos : Type := ℚ × ℚ

/-- `TRIGGER_DIST = 150` (app.py line 51): the single geofence radius. -/
def TRIGGER_DIST : ℚ := 150

/-- `MOVE_THRESHOLD = 5` (app.py line 52): the movement debounce distance. -/
def MOVE_THRESHOLD : ℚ := 5

/-- Events surfaced by one script run.  `visitEnter k` is the arrival toast
emitted at app.py line 323 when `current_spot` switches to spot `k`.
`visitExit` is the spec's exit event; it is part of the vocabulary needed to
state the claims, and the code never emits it (there is no exit transition
anywhere in `app.py`). -/
inductive Event where
  | visitEnter (key : Nat)
  | visitExit (key : Nat)
deriving DecidableEq, Repr

/-- The part of `st.session_state` that the geofence logic reads and writes:
`user_coords` (line 57) and `current_spot` (line 61).  Spot keys are modelled
as naturals (the JSON keys of `data/spots.json` are fixed non-empty strings). -/
structure AppState where
  user_coords : Option Pos
  current_spot : Option Nat
deriving DecidableEq, Repr

/-- GPS handling, app.py lines 213-230: a missing fix leaves the stored
position alone; the first fix is stored unconditionally; afterwards a fix is
stored only when its distance from the stored position exceeds
`MOVE_THRESHOLD` (the `st.rerun()` on update only restarts the script with the
new stored position, so one delivered fix still amounts to one tick). -/
def gpsUpdate (dist : Pos → Pos → ℚ) (old : Option Pos) (loc : Option Pos) :
    Option Pos :=
  match loc with
  | none => old
  | some newPos =>
      match old with
      | none => some newPos
      | some oldPos =>
          if MOVE_THRESHOLD < dist oldPos newPos then some newPos else some oldPos

/-- Distance from the (possibly missing) user position to a spot position,
app.py lines 280-282: with no position every spot gets the sentinel `99999`. -/
def spotDist (dist : Pos → Pos → ℚ) (user : Option Pos) (p : Pos) : ℚ :=
  match user with
  | some u => dist u p
  | none => 99999

/-- The nearest-spot loop of app.py lines 273-301: iterate the spots in
insertion order, keep the strictly smallest distance (`if d < min_dist`), so
ties keep the first-encountered spot; `min_dist` starts at infinity, hence the
first spot always replaces the empty accumulator. -/
def nearestSpot (dist : Pos → Pos → ℚ) (user : Option Pos)
    (spots : List (Nat × Pos)) : Option (Nat × ℚ) :=
  spots.foldl (fun acc kp =>
    match acc with
    | none => some (kp.1, spotDist dist user kp.2)
    | some (k, m) =>
        if spotDist dist user kp.2 < m then some (kp.1, spotDist dist user kp.2)
        else some (k, m)) none

/-- The guard of the arrival block, app.py line 317:
`st.session_state.user_coords and nearest_key and min_dist <= TRIGGER_DIST`
(the `nearest_key` conjunct is the `some` case of `nearestSpot`). -/
def arrivalGuard (user : Option Pos) (m : ℚ) : Bool :=
  user.isSome && decide (m ≤ TRIGGER_DIST)

/-- The arrival block of app.py lines 316-323, abstracted over the result of
the nearest-spot loop: inside the trigger radius the session switches
`current_spot` to the nearest key, toasting (emitting `visitEnter`) exactly
when the key changed; outside the radius nothing is written (in particular
`current_spot` is never reset - the code has no exit transition). -/
def arrivalStep (user : Option Pos) (cur : Option Nat) :
    Option (Nat × ℚ) → AppState × List Event
  | some (k, m) =>
      if arrivalGuard user m then
        if cur = some k then (AppState.mk user (some k), [])
        else (AppState.mk user (some k), [Event.visitEnter k])
      else (AppState.mk user cur, [])
  | none => (AppState.mk user cur, [])

/-- One script run of `app.py` restricted to the geofence logic: process the
(optional) GPS fix, run the nearest-spot loop, run the arrival block.  The
`dist` parameter is total, so `tick` models the runs in which every `geodesic`
call returns — that is, all well-formed coordinates; `tickChecked` below adds
the `ValueError` that geopy raises on an out-of-range latitude. -/
def tick (dist : Pos → Pos → ℚ) (spots : List (Nat × Pos)) (s : AppState)
    (loc : Option Pos) : AppState × List Event :=
  arrivalStep (gpsUpdate dist s.user_coords loc) s.current_spot
    (nearestSpot dist (gpsUpdate dist s.user_coords loc) spots)

/-- A sequence of script runs, one per delivered (or missing) fix, with the
emitted events concatenated in order. -/
def runTicks (dist : Pos → Pos → ℚ) (spots : List (Nat × Pos)) (s : AppState) :
    List (Option Pos) → AppState × List Event
  | [] => (s, [])
  | l :: ls =>
      ((runTicks dist spots (tick dist spots s l).1 ls).1,
        (tick dist spots s l).2 ++ (runTicks dist spots (tick dist spots s l).1 ls).2)

/-- Recogniser for exit events. -/
def isExit : Event → Bool
  | Event.visitEnter _ => false
  | Event.visitExit _ => true

/-- Number of `visitExit` events in a trace. -/
def countExit (es : List Event) : Nat := es.countP isExit

/-- A concrete one-dimensional distance function used for concrete runs: fixes
and spots are placed on a line (second coordinate 0) at integer coordinates and
the distance is the absolute difference of the first coordinates (computed on
the numerators so that concrete runs evaluate by `decide`). -/
def lineDist (p q : Pos) : ℚ :=
  ((if p.1.num ≤ q.1.num then q.1.num - p.1.num else p.1.num - q.1.num : ℤ) : ℚ)

/-- A point on the line at coordinate `x`. -/
def pt (x : ℚ) : Pos := (x, 0)

/-- The session invariant that every script run (re-)establishes: whenever a
position is known and the nearest spot is within `TRIGGER_DIST`, `current_spot`
is that nearest key (the arrival block just wrote it). -/
def consistentB (dist : Pos → Pos → ℚ) (spots : List (Nat × Pos))
    (user : Option Pos) (cur : Option Nat) : Bool :=
  match nearestSpot dist user spots with
  | some (k, m) => !(arrivalGuard user m) || (cur == some k)
  | none => true

/-- Contents of the broadcast temp file `mqtt_broadcast.json` as read by
`check_mqtt` (app.py lines 154-171): `data.get("timestamp", 0)` and
`data.get("cmd", "")` both default when a field is missing. -/
structure BroadcastFile where
  timestamp : Option ℚ
  cmd : Option String
deriving DecidableEq, Repr

/-- `check_mqtt` (app.py lines 154-171): given the stored `last_mqtt_time` and
the (possibly absent) broadcast file, return the accepted command (if any) and
the new `last_mqtt_time`.  A command is accepted exactly when its timestamp is
strictly greater than `last_mqtt_time`, which is updated on acceptance. -/
def check_mqtt (last_mqtt_time : ℚ) (file : Option BroadcastFile) :
    Option String × ℚ :=
  match file with
  | none => (none, last_mqtt_time)
  | some data =>
      if data.timestamp.getD 0 > last_mqtt_time
      then (some (data.cmd.getD ""), data.timestamp.getD 0)
      else (none, last_mqtt_time)

/-- Ingest a sequence of timestamped commands through `check_mqtt`, returning
the acceptance flag of each command and the final `last_mqtt_time`.  This is
the repeated per-tick reading of the broadcast file, one write per command. -/
def ingestList (last : ℚ) : List (ℚ × String) → List Bool × ℚ
  | [] => ([], last)
  | c :: cs =>
      ((check_mqtt last (some (BroadcastFile.mk (some c.1) (some c.2)))).1.isSome
          :: (ingestList (check_mqtt last (some (BroadcastFile.mk (some c.1) (some c.2)))).2 cs).1,
        (ingestList (check_mqtt last (some (BroadcastFile.mk (some c.1) (some c.2)))).2 cs).2)

/-- Result of `load_rag` (app.py lines 114-147): either an error string
(missing index, missing key, or an exception message) or the runnable chain. -/
inductive LoadResult where
  | failure (msg : String)
  | chain
deriving DecidableEq, Repr

/-- `load_rag` (app.py lines 114-147): fail with `"FAISS index missing"` when
the index directory is absent, with `"GOOGLE_API_KEY missing in st.secrets"`
when the credential is absent, with `"RAG Error: ..."` when construction
raises, and otherwise return the retriever-prompt-llm chain. -/
def load_rag (faissIndexExists : Bool) (hasGoogleApiKey : Bool)
    (initError : Option String) : LoadResult :=
  if !faissIndexExists then LoadResult.failure "FAISS index missing"
  else if !hasGoogleApiKey then LoadResult.failure "GOOGLE_API_KEY missing in st.secrets"
  else
    match initError with
    | some e => LoadResult.failure ("RAG Error: " ++ e)
    | none => LoadResult.chain

/-- Outcome of asking a question (app.py lines 346-353): the error string is
shown (`st.error`) when loading failed, otherwise the chain's answer is shown.
`outOfScope` is the refusal outcome the specification describes; it is part of
the vocabulary needed to state the claims, and the code has no code path that
produces it. -/
inductive Outcome where
  | unavailableShown (msg : String)
  | answered (text : String)
  | outOfScope
deriving DecidableEq, Repr

/-- Discriminator: is the outcome the refusal outcome? -/
def outcomeIsOutOfScope : Outcome → Bool
  | Outcome.outOfScope => true
  | _ => false

/-- Discriminator: is the outcome an answer? -/
def outcomeIsAnswered : Outcome → Bool
  | Outcome.answered _ => true
  | _ => false

/-- The grounded prompt built by the chain (app.py lines 136-144): the
retriever fetches passages for the question (`k = 2`, scores are never looked
at), and the prompt template interpolates the passage texts and the question.
The exact stringification of the retrieved documents is LangChain's; the
passage texts are joined here with blank lines, and no claim depends on it. -/
def ragPrompt (retrieve : String → List (String × ℚ)) (q : String) : String :=
  "背景:" ++ String.intercalate "\n\n" (((retrieve q).take 2).map Prod.fst)
    ++ "\n問題:" ++ q ++ "\n回答 (請簡短，適合語音朗讀):"

/-- `qa_chain_or_error.invoke` (app.py line 352): one call to the generation
oracle on the grounded prompt.  The second component counts generation calls. -/
def invokeChain (retrieve : String → List (String × ℚ)) (generate : String → String)
    (q : String) : String × Nat :=
  (generate (ragPrompt retrieve q), 1)

/-- The question branch of app.py lines 346-353: when loading failed the error
string is shown and generation is never invoked; otherwise the chain is invoked
on the situated question `我現在在「spot」，question` and its text is shown. -/
def handleQuestion (lr : LoadResult) (retrieve : String → List (String × ℚ))
    (generate : String → String) (spotName question : String) : Outcome × Nat :=
  match lr with
  | LoadResult.failure msg => (Outcome.unavailableShown msg, 0)
  | LoadResult.chain =>
      ((Outcome.answered (invokeChain retrieve generate
          ("我現在在「" ++ spotName ++ "」，" ++ question)).1),
        (invokeChain retrieve generate
          ("我現在在「" ++ spotName ++ "」，" ++ question)).2)

/-- Latitude validity as enforced by the external `geopy` library: every call
`geodesic(a, b)` in app.py builds `geopy.Point`s, and `Point` raises
`ValueError` for a latitude outside [-90, 90] (out-of-range longitudes are
normalised silently, which the abstract `dist` parameter absorbs).  `Pos` is
`(latitude, longitude)`, matching `(new_lat, new_lon)` at app.py lines
215-217. -/
def validLatB (p : Pos) : Bool := decide (-90 ≤ p.1) && decide (p.1 ≤ 90)

/-- Whether the GPS block raises: the `geodesic(old_pos, new_pos)` call at
app.py line 226 runs exactly when a fix arrives while a position is already
stored, and it raises when either latitude is out of range.  The raise happens
before the line 228 store, so the stored position is untouched on this crash. -/
def gpsBlockCrashes (old loc : Option Pos) : Bool :=
  match loc, old with
  | some newPos, some oldPos => !(validLatB oldPos && validLatB newPos)
  | _, _ => false

/-- Whether the spots loop raises: `geodesic(user_coords, spot_pos)` at app.py
line 282 runs for every spot whenever a position is stored, so the loop raises
exactly when a position is stored and some spot's call involves an
out-of-range latitude.  Only the crash itself is observable (the loop's local
variables are lost and it writes no session state), so no order of iteration
needs recording. -/
def spotsLoopCrashes (user : Option Pos) (spots : List (Nat × Pos)) : Bool :=
  match user with
  | none => false
  | some u => spots.any (fun kp => !(validLatB u && validLatB kp.2))

/-- One script run of `app.py` including geopy's latitude validation (which the
total `dist` parameter of `tick` abstracts away): the run either raises
`ValueError` in the GPS block (state untouched, nothing emitted), or raises in
the spots loop (the GPS block's store — in particular the unconditional
first-fix store at line 223 — has already happened; the arrival block at line
317 is never reached, so nothing is emitted), or completes as `tick` does.
`st.session_state` survives the uncaught exception, so the state component is
what the next run starts from; the boolean flags the crash. -/
def tickChecked (dist : Pos → Pos → ℚ) (spots : List (Nat × Pos)) (s : AppState)
    (loc : Option Pos) : AppState × List Event × Bool :=
  if gpsBlockCrashes s.user_coords loc then (s, [], true)
  else if spotsLoopCrashes (gpsUpdate dist s.user_coords loc) spots then
    (AppState.mk (gpsUpdate dist s.user_coords loc) s.current_spot, [], true)
  else ((tick dist spots s loc).1, (tick dist spots s loc).2, false)

/-! ## Basic facts about one tick -/

/-- The arrival block never changes the stored position. -/
lemma arrivalStep_user (u : Option Pos) (cur : Option Nat) (r : Option (Nat × ℚ)) :
    (arrivalStep u cur r).1.user_coords = u := by
  rcases r with _ | ⟨k, m⟩
  · rfl
  · simp only [arrivalStep]
    by_cases hg : arrivalGuard u m = true
    · rw [if_pos hg]
      by_cases hk : cur = some k
      · rw [if_pos hk]
      · rw [if_neg hk]
    · rw [if_neg hg]

/-- The stored position after a tick is exactly the debounced GPS update. -/
lemma tick_user_coords (dist : Pos → Pos → ℚ) (spots : List (Nat × Pos))
    (s : AppState) (l : Option Pos) :
    (tick dist spots s l).1.user_coords = gpsUpdate dist s.user_coords l := by
  unfold tick
  exact arrivalStep_user _ _ _

/-- Feeding the same fix twice through the debounce is the same as feeding it
once: the second pass cannot move the stored position again. -/
lemma gpsUpdate_idem (dist : Pos → Pos → ℚ) (u : Option Pos) (l : Option Pos) :
    gpsUpdate dist (gpsUpdate dist u l) l = gpsUpdate dist u l := by
  cases l with
  | none => rfl
  | some p =>
    cases u with
    | none => simp [gpsUpdate]
    | some q =>
      by_cases h : MOVE_THRESHOLD < dist q p
      · simp [gpsUpdate, h]
      · simp [gpsUpdate, h]

/-- A tick either emits nothing and leaves `current_spot` alone, or emits a
single `visitEnter k` while switching `current_spot` to a different `some k`. -/
lemma tick_cases (dist : Pos → Pos → ℚ) (spots : List (Nat × Pos))
    (s : AppState) (l : Option Pos) :
    ((tick dist spots s l).2 = [] ∧ (tick dist spots s l).1.current_spot = s.current_spot)
    ∨ (∃ k, (tick dist spots s l).2 = [Event.visitEnter k]
        ∧ s.current_spot ≠ some k ∧ (tick dist spots s l).1.current_spot = some k) := by
  unfold tick
  rcases hn : nearestSpot dist (gpsUpdate dist s.user_coords l) spots with _ | ⟨k, m⟩
  · left
    exact ⟨rfl, rfl⟩
  · simp only [arrivalStep]
    by_cases hg : arrivalGuard (gpsUpdate dist s.user_coords l) m = true
    · rw [if_pos hg]
      by_cases hk : s.current_spot = some k
      · rw [if_pos hk]
        left
        exact ⟨rfl, hk.symm⟩
      · rw [if_neg hk]
        right
        exact ⟨k, rfl, hk, rfl⟩
    · rw [if_neg hg]
      left
      exact ⟨rfl, rfl⟩

/-- Every tick re-establishes the session invariant `consistentB`. -/
lemma tick_consistent (dist : Pos → Pos → ℚ) (spots : List (Nat × Pos))
    (s : AppState) (l : Option Pos) :
    consistentB dist spots (tick dist spots s l).1.user_coords
      (tick dist spots s l).1.current_spot = true := by
  unfold tick
  generalize gpsUpdate dist s.user_coords l = u
  rcases hn : nearestSpot dist u spots with _ | ⟨k, m⟩
  · show consistentB dist spots u s.current_spot = true
    simp [consistentB, hn]
  · simp only [arrivalStep]
    by_cases hg : arrivalGuard u m = true
    · by_cases hk : s.current_spot = some k
      · rw [if_pos hg, if_pos hk]
        show consistentB dist spots u (some k) = true
        simp [consistentB, hn]
      · rw [if_pos hg, if_neg hk]
        show consistentB dist spots u (some k) = true
        simp [consistentB, hn]
    · rw [if_neg hg]
      show consistentB dist spots u s.current_spot = true
      rcases hb : arrivalGuard u m with _ | _
      · simp [consistentB, hn, hb]
      · exact absurd hb hg

/-- On a consistent state, a tick that does not move the stored position (in
particular a tick with no fix, or with a fix within the movement debounce) is
a complete no-op: state unchanged, nothing emitted. -/
lemma tick_fix_noop (dist : Pos → Pos → ℚ) (spots : List (Nat × Pos))
    (s : AppState) (l : Option Pos)
    (h1 : gpsUpdate dist s.user_coords l = s.user_coords)
    (h2 : consistentB dist spots s.user_coords s.current_spot = true) :
    tick dist spots s l = (s, []) := by
  unfold tick
  rw [h1]
  rcases hn : nearestSpot dist s.user_coords spots with _ | ⟨k, m⟩
  · rfl
  · simp only [consistentB, hn] at h2
    simp only [arrivalStep]
    by_cases hg : arrivalGuard s.user_coords m = true
    · rw [hg] at h2
      simp only [Bool.not_true, Bool.false_or] at h2
      have hk : s.current_spot = some k := by rwa [beq_iff_eq] at h2
      rw [if_pos hg, if_pos hk, ← hk]
    · rw [if_neg hg]

/-- The fresh session (`user_coords = None`, `current_spot = None`, app.py
lines 57-62) satisfies the session invariant. -/
lemma consistentB_initial (dist : Pos → Pos → ℚ) (spots : List (Nat × Pos)) :
    consistentB dist spots none none = true := by
  rcases hn : nearestSpot dist none spots with _ | ⟨k, m⟩
  · simp [consistentB, hn]
  · simp [consistentB, hn, arrivalGuard]

/-- The session invariant is preserved along any run. -/
lemma runTicks_consistent (dist : Pos → Pos → ℚ) (spots : List (Nat × Pos)) :
    ∀ (locs : List (Option Pos)) (s : AppState),
      consistentB dist spots s.user_coords s.current_spot = true →
      consistentB dist spots (runTicks dist spots s locs).1.user_coords
        (runTicks dist spots s locs).1.current_spot = true := by
  intro locs
  induction locs with
  | nil => intro s h; exact h
  | cons l ls ih =>
    intro s _
    simp only [runTicks]
    exact ih (tick dist spots s l).1 (tick_consistent dist spots s l)

/-! ## Facts about the broadcast arbitration -/

/-- One read of a freshly written broadcast file: accepted exactly when its
timestamp is strictly newer, in which case `last_mqtt_time` becomes that
timestamp. -/
lemma check_mqtt_step (last t : ℚ) (cmd : String) :
    check_mqtt last (some (BroadcastFile.mk (some t) (some cmd)))
      = if last < t then (some cmd, t) else (none, last) := rfl

/-- `if a < b then b else a` is the maximum. -/
lemma ite_lt_max (a b : ℚ) : (if a < b then b else a) = max a b := by
  rcases le_or_lt b a with h | h
  · rw [if_neg (not_lt.mpr h), max_eq_left h]
  · rw [if_pos h, max_eq_right h.le]

/-- Ingesting a concatenation: the prefix is processed first, then the suffix
from the prefix's final `last_mqtt_time`. -/
lemma ingestList_append (xs : List (ℚ × String)) :
    ∀ (ys : List (ℚ × String)) (last : ℚ),
      ingestList last (xs ++ ys)
        = ((ingestList last xs).1 ++ (ingestList (ingestList last xs).2 ys).1,
            (ingestList (ingestList last xs).2 ys).2) := by
  induction xs with
  | nil => intro ys last; simp [ingestList]
  | cons c cs ih => intro ys last; simp [ingestList, ih]

/-- Ingesting one command: the acceptance flag is the strict comparison with
the current `last_mqtt_time`, and the new `last_mqtt_time` is the maximum. -/
lemma ingestList_single (s t : ℚ) (cmd : String) :
    ingestList s [(t, cmd)] = ([decide (s < t)], max s t) := by
  by_cases h : s < t
  · simp [ingestList, check_mqtt, h, max_eq_right h.le]
  · simp [ingestList, check_mqtt, h, max_eq_left (not_lt.mp h)]

/-- After any command sequence, `last_mqtt_time` is the running maximum of the
initial value and every timestamp seen (accepted or not: rejected timestamps
never exceed it). -/
lemma ingestList_state (cmds : List (ℚ × String)) :
    ∀ last : ℚ, (ingestList last cmds).2 = (cmds.map Prod.fst).foldl max last := by
  induction cmds with
  | nil => intro last; simp [ingestList]
  | cons c cs ih =>
    intro last
    have hstep : (check_mqtt last (some (BroadcastFile.mk (some c.1) (some c.2)))).2
        = max last c.1 := by
      rw [check_mqtt_step, ← ite_lt_max]
      by_cases h : last < c.1
      · rw [if_pos h, if_pos h]
      · rw [if_neg h, if_neg h]
    simp only [ingestList, hstep, List.map_cons, List.foldl_cons]
    exact ih (max last c.1)

/-! ## Claim theorems -/

/-- C5: broadcast ingestion accepts a command exactly when its timestamp is
strictly greater than the highest timestamp seen so far, updating
`last_mqtt_time` on acceptance; in any sequence the stored `last_mqtt_time` is
the running maximum, so a replay with an identical timestamp is rejected as a
duplicate and a smaller timestamp is rejected as stale — witnessed concretely
by the sequence `[(5, a), (5, a), (3, b)]` from the initial time `0`, which
accepts only the first command. -/
theorem broadcast_monotonic_dedup (last t : ℚ) (cmd : String)
    (cmds : List (ℚ × String)) :
    (check_mqtt last (some (BroadcastFile.mk (some t) (some cmd)))
        = if last < t then (some cmd, t) else (none, last))
    ∧ (ingestList last (cmds ++ [(t, cmd)])).1
        = (ingestList last cmds).1 ++ [decide ((ingestList last cmds).2 < t)]
    ∧ (ingestList last (cmds ++ [(t, cmd)])).2 = max (ingestList last cmds).2 t
    ∧ (ingestList last cmds).2 = (cmds.map Prod.fst).foldl max last
    ∧ ingestList 0 [(5, "sos"), (5, "sos"), (3, "welcome")]
        = ([true, false, false], 5) := by
  refine ⟨check_mqtt_step last t cmd, ?_, ?_, ingestList_state cmds last, by decide⟩
  · rw [ingestList_append cmds [(t, cmd)] last, ingestList_single]
  · rw [ingestList_append cmds [(t, cmd)] last, ingestList_single]

/-- C6: a missing or failed position fix is a no-op.  From any session state
reachable from a fresh session by any fix history, `N` consecutive ticks with
no fix leave the whole session state (stored position and current spot, the
latter also being the dispatch record) unchanged and emit no event. -/
theorem missing_fix_noop (dist : Pos → Pos → ℚ) (spots : List (Nat × Pos))
    (prior : List (Option Pos)) (N : Nat) :
    runTicks dist spots (runTicks dist spots (AppState.mk none none) prior).1
        (List.replicate N none)
      = ((runTicks dist spots (AppState.mk none none) prior).1, []) := by
  have hc := runTicks_consistent dist spots prior (AppState.mk none none)
    (consistentB_initial dist spots)
  induction N with
  | zero => rfl
  | succ n ih =>
    have ht := tick_fix_noop dist spots
      (runTicks dist spots (AppState.mk none none) prior).1 none rfl hc
    simp [List.replicate_succ, runTicks, ht, ih]

/-- C1: the code has no hysteresis.  It uses the single radius
`TRIGGER_DIST = 150`: on the distance sequence `[200, 130, 160, 100, 200]`
from a single point the (only) `VisitEnter` is already emitted at distance
130, which is strictly greater than the claimed `ENTER_RADIUS = 120`, and no
exit threshold exists at all — contradicting the claim that an enter is
emitted only at distance at most 120 (hence at the fix at distance 100). -/
theorem single_radius_no_hysteresis :
    (runTicks lineDist [(0, pt 0)] (AppState.mk none none)
        [some (pt 200), some (pt 130)]).2 = [Event.visitEnter 0]
    ∧ (runTicks lineDist [(0, pt 0)] (AppState.mk none none)
        [some (pt 200), some (pt 130), some (pt 160), some (pt 100),
         some (pt 200)]).2 = [Event.visitEnter 0]
    ∧ lineDist (pt 130) (pt 0) = 130
    ∧ ((120 : ℚ) < 130)
    ∧ TRIGGER_DIST = 150 := by decide

/-- C4 counterexample: two spots at line coordinates 0 and 100.  After a fix at
40 the session is inside spot 0; the next fix at 60 is still at distance 60
from spot 0 — below the claimed `EXIT_RADIUS = 170` (and below 150) — yet the
code compares against the nearest-overall spot and reassigns `current_spot` to
spot 1: the assignment is not sticky. -/
theorem sticky_assignment_fails :
    ((runTicks lineDist [(0, pt 0), (1, pt 100)] (AppState.mk none none)
        [some (pt 40)]).1.current_spot = some 0)
    ∧ lineDist (pt 60) (pt 0) < 170
    ∧ (((runTicks lineDist [(0, pt 0), (1, pt 100)] (AppState.mk none none)
        [some (pt 40), some (pt 60)]).1.current_spot == some (0 : Nat)) = false)
    ∧ ((runTicks lineDist [(0, pt 0), (1, pt 100)] (AppState.mk none none)
        [some (pt 40), some (pt 60)]).1.current_spot = some 1) := by decide

/-- C4 (amended): while the state is `INSIDE(p)`, a new fix is compared against
the nearest-overall spot, not against `p`: whenever a position is known and the
nearest spot `k` is within `TRIGGER_DIST`, `current_spot` is reassigned to `k`
(with a new arrival emission when `k ≠ p`) — assignment is not sticky, and only
a nearest spot farther than `TRIGGER_DIST` leaves `current_spot` unchanged. -/
theorem inside_reassigned_to_nearest (dist : Pos → Pos → ℚ)
    (spots : List (Nat × Pos)) (s : AppState) (l : Option Pos) (p k : Nat) (m : ℚ)
    (hin : s.current_spot = some p)
    (hnear : nearestSpot dist (gpsUpdate dist s.user_coords l) spots = some (k, m))
    (hguard : arrivalGuard (gpsUpdate dist s.user_coords l) m = true)
    (hne : k ≠ p) :
    (tick dist spots s l).1.current_spot = some k
    ∧ (tick dist spots s l).2 = [Event.visitEnter k] := by
  have hcur : s.current_spot ≠ some k := by
    rw [hin]
    intro h
    exact hne (Option.some.inj h).symm
  unfold tick
  rw [hnear]
  simp only [arrivalStep]
  rw [if_pos hguard, if_neg hcur]
  exact ⟨rfl, rfl⟩

/-- Witness for `inside_reassigned_to_nearest`: the concrete C4 scenario (two
spots at 0 and 100, inside spot 0 at position 40, fix at 60). -/
theorem inside_reassigned_witness :
    ((AppState.mk (some (pt 40)) (some 0)).current_spot = some 0)
    ∧ (nearestSpot lineDist
        (gpsUpdate lineDist (AppState.mk (some (pt 40)) (some 0)).user_coords
          (some (pt 60))) [(0, pt 0), (1, pt 100)] = some (1, 40))
    ∧ (arrivalGuard
        (gpsUpdate lineDist (AppState.mk (some (pt 40)) (some 0)).user_coords
          (some (pt 60))) 40 = true)
    ∧ (tick lineDist [(0, pt 0), (1, pt 100)] (AppState.mk (some (pt 40)) (some 0))
        (some (pt 60))).1.current_spot = some 1
    ∧ (tick lineDist [(0, pt 0), (1, pt 100)] (AppState.mk (some (pt 40)) (some 0))
        (some (pt 60))).2 = [Event.visitEnter 1] :=
  ⟨rfl, by decide, by decide,
    (inside_reassigned_to_nearest lineDist [(0, pt 0), (1, pt 100)]
      (AppState.mk (some (pt 40)) (some 0)) (some (pt 60)) 0 1 40 rfl (by decide)
      (by decide) (by decide)).1,
    (inside_reassigned_to_nearest lineDist [(0, pt 0), (1, pt 100)]
      (AppState.mk (some (pt 40)) (some 0)) (some (pt 60)) 0 1 40 rfl (by decide)
      (by decide) (by decide)).2⟩

/-- C7 counterexample: two spots at 0 and 60; the fix sequence 10, 50, 10 makes
`current_spot` go 0, 1, 0, dispatching spot 0 twice while no `VisitExit` is
ever emitted — re-dispatch eligibility is not reset by a `VisitExit` (the code
has none) but by reassignment to another spot. -/
theorem redispatch_without_exit :
    ((runTicks lineDist [(0, pt 0), (1, pt 60)] (AppState.mk none none)
        [some (pt 10), some (pt 50), some (pt 10)]).2
      = [Event.visitEnter 0, Event.visitEnter 1, Event.visitEnter 0])
    ∧ countExit (runTicks lineDist [(0, pt 0), (1, pt 60)] (AppState.mk none none)
        [some (pt 10), some (pt 50), some (pt 10)]).2 = 0 := by decide

/-- C7 (amended): a tick dispatches at most once, and only when `current_spot`
changes to a different spot; running the tick again on the unchanged input
(state still inside the same spot) triggers zero additional dispatches.
Eligibility is reset by reassignment of `current_spot` to another spot, not by
any `VisitExit`. -/
theorem dispatch_once_per_tick (dist : Pos → Pos → ℚ) (spots : List (Nat × Pos))
    (s : AppState) (l : Option Pos) :
    ((tick dist spots s l).2 = []
      ∨ ∃ k, (tick dist spots s l).2 = [Event.visitEnter k]
          ∧ ((s.current_spot == some k) = false)
          ∧ (tick dist spots s l).1.current_spot = some k)
    ∧ (tick dist spots (tick dist spots s l).1 l).2 = [] := by
  constructor
  · rcases tick_cases dist spots s l with ⟨he, _⟩ | ⟨k, he, hne, hcur⟩
    · exact Or.inl he
    · exact Or.inr ⟨k, he, by rwa [beq_eq_false_iff_ne], hcur⟩
  · have h1 : gpsUpdate dist (tick dist spots s l).1.user_coords l
        = (tick dist spots s l).1.user_coords := by
      rw [tick_user_coords]
      exact gpsUpdate_idem dist s.user_coords l
    have h3 := tick_fix_noop dist spots (tick dist spots s l).1 l h1
      (tick_consistent dist spots s l)
    rw [h3]

/-- When no `geodesic` call raises — in particular whenever every latitude in
play is within [-90, 90] — the checked run coincides with `tick` and does not
crash: the total-`dist` abstraction used by the other geofence theorems is
sound on well-formed coordinates. -/
lemma tickChecked_ok (dist : Pos → Pos → ℚ) (spots : List (Nat × Pos))
    (s : AppState) (loc : Option Pos)
    (h1 : gpsBlockCrashes s.user_coords loc = false)
    (h2 : spotsLoopCrashes (gpsUpdate dist s.user_coords loc) spots = false) :
    tickChecked dist spots s loc
      = ((tick dist spots s loc).1, (tick dist spots s loc).2, false) := by
  unfold tickChecked
  rw [h1, h2]
  rfl

/-- C9 counterexample: a first fix with latitude 91 (outside [-90, 90]) is not
rejected with `InvalidFixError` and is not treated like a missing fix: the run
stores it as the user position (a state transition, since the line 223 store
precedes any distance call) and then crashes with geopy's `ValueError` at the
`geodesic` call of the spots loop, before the arrival block — contradicting
both the claimed no-op and the claimed never-crashing. -/
theorem malformed_fix_crashes :
    ((90 : ℚ) < 91)
    ∧ tickChecked lineDist [(0, pt 0)] (AppState.mk none none) (some (pt 91))
        = (AppState.mk (some (pt 91)) none, [], true) := by decide

/-- C9 (amended): a fix with an out-of-range latitude is not rejected with
`InvalidFixError` and not treated as a missing fix: the code performs no
validation of its own, so a malformed first fix is stored as the user position
(a state transition) and the script run then crashes with geopy's `ValueError`
at the `geodesic` call of the spots loop, before the arrival block — nothing
is emitted, but neither "no transition" nor "never crashes" holds (an
out-of-range longitude is normalised silently by geopy instead). -/
theorem malformed_first_fix_stored_then_crash (dist : Pos → Pos → ℚ)
    (spots : List (Nat × Pos)) (s : AppState) (p : Pos)
    (h0 : s.user_coords = none)
    (hbad : p.1 < -90 ∨ 90 < p.1)
    (hne : spots ≠ []) :
    tickChecked dist spots s (some p)
      = (AppState.mk (some p) s.current_spot, [], true) := by
  have hv : validLatB p = false := by
    unfold validLatB
    rcases hbad with h | h
    · have hlt : ¬ (-90 : ℚ) ≤ p.1 := not_le.mpr h
      simp [hlt]
    · have hlt : ¬ p.1 ≤ (90 : ℚ) := not_le.mpr h
      simp [hlt]
  have hgps : gpsBlockCrashes s.user_coords (some p) = false := by
    rw [h0]
    rfl
  have huser : gpsUpdate dist s.user_coords (some p) = some p := by
    rw [h0]
    rfl
  have hloop : spotsLoopCrashes (gpsUpdate dist s.user_coords (some p)) spots = true := by
    rw [huser]
    unfold spotsLoopCrashes
    cases spots with
    | nil => exact absurd rfl hne
    | cons kp rest => simp [hv]
  unfold tickChecked
  rw [hgps, hloop, huser]
  rfl

/-- Witness for `malformed_first_fix_stored_then_crash`: a fresh session, one
spot at line coordinate 0, and a first fix at latitude 91. -/
theorem malformed_first_fix_witness :
    ((AppState.mk none none).user_coords = (none : Option Pos)
      ∧ ((pt 91).1 < -90 ∨ 90 < (pt 91).1)
      ∧ [(0, pt 0)] ≠ ([] : List (Nat × Pos)))
    ∧ tickChecked lineDist [(0, pt 0)] (AppState.mk none none) (some (pt 91))
        = (AppState.mk (some (pt 91)) none, [], true) :=
  ⟨⟨rfl, Or.inr (by decide), by decide⟩,
    malformed_first_fix_stored_then_crash lineDist [(0, pt 0)]
      (AppState.mk none none) (pt 91) rfl (Or.inr (by decide)) (by decide)⟩

/-- C10: the implicit movement debounce.  With a stored position `old`, a fix
within `MOVE_THRESHOLD` of `old` leaves the stored position unchanged and the
whole tick behaves exactly like a tick with no fix (all downstream geofence
evaluation sees the old position); in general a fix updates the stored position
exactly when it is farther than `MOVE_THRESHOLD`, and a first fix (no stored
position) is always stored. -/
theorem move_threshold_debounce (dist : Pos → Pos → ℚ) (spots : List (Nat × Pos))
    (s : AppState) (old p : Pos)
    (h1 : s.user_coords = some old)
    (h2 : dist old p ≤ MOVE_THRESHOLD) :
    tick dist spots s (some p) = tick dist spots s none
    ∧ (tick dist spots s (some p)).1.user_coords = some old
    ∧ (∀ q : Pos, (tick dist spots s (some q)).1.user_coords
        = if MOVE_THRESHOLD < dist old q then some q else some old)
    ∧ (∀ q : Pos, (tick dist spots (AppState.mk none s.current_spot)
        (some q)).1.user_coords = some q) := by
  have hgu : ∀ q : Pos, gpsUpdate dist s.user_coords (some q)
      = if MOVE_THRESHOLD < dist old q then some q else some old := by
    intro q
    rw [h1]
    rfl
  refine ⟨?_, ?_, ?_, ?_⟩
  · unfold tick
    rw [hgu p, if_neg (not_lt.mpr h2), h1]
    rfl
  · rw [tick_user_coords, hgu p, if_neg (not_lt.mpr h2)]
  · intro q
    rw [tick_user_coords, hgu q]
  · intro q
    rw [tick_user_coords]
    rfl

/-- Witness for `move_threshold_debounce`: stored position 40, fix at 43
(3 metres away, below the 5 metre threshold), one spot at 0. -/
theorem move_threshold_debounce_witness :
    ((AppState.mk (some (pt 40)) (some 0)).user_coords = some (pt 40)
      ∧ lineDist (pt 40) (pt 43) ≤ MOVE_THRESHOLD)
    ∧ tick lineDist [(0, pt 0)] (AppState.mk (some (pt 40)) (some 0))
        (some (pt 43))
      = tick lineDist [(0, pt 0)] (AppState.mk (some (pt 40)) (some 0)) none
    ∧ (tick lineDist [(0, pt 0)] (AppState.mk (some (pt 40)) (some 0))
        (some (pt 43))).1.user_coords = some (pt 40) :=
  ⟨⟨rfl, by decide⟩,
    (move_threshold_debounce lineDist [(0, pt 0)]
      (AppState.mk (some (pt 40)) (some 0)) (pt 40) (pt 43) rfl (by decide)).1,
    (move_threshold_debounce lineDist [(0, pt 0)]
      (AppState.mk (some (pt 40)) (some 0)) (pt 40) (pt 43) rfl (by decide)).2.1⟩

/-- Changing every retrieval score while keeping the passages leaves the
retrieved context, and hence the built prompt, unchanged: scores are dropped
by the retriever and never inspected. -/
lemma map_fst_rescore (rescore : ℚ → ℚ) (l : List (String × ℚ)) :
    (l.map (fun pr => (pr.1, rescore pr.2))).map Prod.fst = l.map Prod.fst := by
  induction l with
  | nil => rfl
  | cons a t ih => simp only [List.map_cons, ih]

/-- Changing every retrieval score while keeping the passages leaves the
built prompt unchanged. -/
lemma ragPrompt_score_blind (retrieve : String → List (String × ℚ))
    (rescore : ℚ → ℚ) (q : String) :
    ragPrompt (fun x => (retrieve x).map (fun pr => (pr.1, rescore pr.2))) q
      = ragPrompt retrieve q := by
  unfold ragPrompt
  rw [List.map_take, map_fst_rescore, ← List.map_take]

/-- C2 counterexample: the retrieval oracle returns a single passage with
score 0.9, outside the claimed acceptance threshold of 0.35 under the
closer-is-better convention, yet the code forwards the prompt to the
generation oracle anyway (one generation call) and returns the answer instead
of `OutOfScope`. -/
theorem generation_despite_bad_score :
    ((35 : ℚ) / 100 < 9 / 10)
    ∧ handleQuestion (load_rag true true none)
        (fun _ => [("passage", (9 : ℚ) / 10)]) (fun _ => "generated") "spot" "q"
      = (Outcome.answered "generated", 1) := by
  constructor
  · norm_num
  · rfl

/-- C2 (amended): the answerer applies no score threshold at all.  Retrieval
scores are never inspected (rescoring them arbitrarily does not change the
outcome); whenever the chain loaded successfully, every question invokes the
generation oracle exactly once and returns its text as an answer, and no code
path produces `OutOfScope`. -/
theorem no_threshold_always_generates (retrieve : String → List (String × ℚ))
    (generate : String → String) (spotName q : String) (lr : LoadResult) :
    handleQuestion LoadResult.chain retrieve generate spotName q
        = (Outcome.answered (generate (ragPrompt retrieve
            ("我現在在「" ++ spotName ++ "」，" ++ q))), 1)
    ∧ outcomeIsOutOfScope (handleQuestion lr retrieve generate spotName q).1 = false
    ∧ (∀ rescore : ℚ → ℚ,
        handleQuestion lr (fun x => (retrieve x).map (fun pr => (pr.1, rescore pr.2)))
          generate spotName q
        = handleQuestion lr retrieve generate spotName q) := by
  refine ⟨rfl, ?_, ?_⟩
  · cases lr with
    | failure msg => rfl
    | chain => rfl
  · intro rescore
    cases lr with
    | failure msg => rfl
    | chain =>
      simp only [handleQuestion, invokeChain, ragPrompt_score_blind]

/-- C8: with the similarity index missing, asking a question returns the
distinguishable outcome `"FAISS index missing"`; with the generation credential
missing, it returns `"GOOGLE_API_KEY missing in st.secrets"`; in both cases the
generation oracle is invoked zero times, and the outcome is neither the
`OutOfScope` refusal nor an answer. -/
theorem unavailable_fail_closed (hasKey : Bool) (initE : Option String)
    (retrieve : String → List (String × ℚ)) (generate : String → String)
    (spotName q : String) :
    handleQuestion (load_rag false hasKey initE) retrieve generate spotName q
        = (Outcome.unavailableShown "FAISS index missing", 0)
    ∧ handleQuestion (load_rag true false initE) retrieve generate spotName q
        = (Outcome.unavailableShown "GOOGLE_API_KEY missing in st.secrets", 0)
    ∧ outcomeIsOutOfScope
        (handleQuestion (load_rag false hasKey initE) retrieve generate spotName q).1
        = false
    ∧ outcomeIsAnswered
        (handleQuestion (load_rag false hasKey initE) retrieve generate spotName q).1
        = false
    ∧ outcomeIsOutOfScope
        (handleQuestion (load_rag true false initE) retrieve generate spotName q).1
        = false
    ∧ outcomeIsAnswered
        (handleQuestion (load_rag true false initE) retrieve generate spotName q).1
        = false :=
  ⟨rfl, rfl, rfl, rfl, rfl, rfl⟩
